import Mathlib

/-!
Verification of the fakeredis connection-substitution layer
(`fakeredis/_server.py`): the server registry, identity-key derivation,
the simulated connection lifecycle (connect, readiness check, response
reading, decoding) and the client-adapter option handling.

Python object identity is modelled with an explicit heap: `FakeServer`
objects live in a store addressed by natural numbers, and the class-level
registry `FakeServer._servers_map` maps identity keys to addresses.
Two connections "resolve to the same server state object" exactly when
they hold the same address.
-/

namespace Fakeredis

/-- The state of one `FakeServer` instance, restricted to the fields the
claims observe: the `connected` flag (set to `True` in `__init__`) and the
protocol `version`.  The databases, subscriber registries, lock and
timestamp are opaque to every claim considered here. -/
structure FakeServer where
  connected : Bool
  version : Nat
deriving Repr, DecidableEq

/-- `FakeServer.__init__(version)`: a fresh server state starts connected. -/
def FakeServer.init (version : Nat) : FakeServer :=
  { connected := true, version := version }

/-- The mutable world: the store of `FakeServer` objects (address ↦ object),
the class attribute `FakeServer._servers_map` (identity key ↦ address), the
next free address, and the seed of the `uuid.uuid4().hex` generator. -/
structure Registry where
  store : List (Nat × FakeServer)
  smap : List (String × Nat)
  nextAddr : Nat
  nextUuid : Nat
deriving Repr, DecidableEq

/-- The empty world: no servers allocated, empty `_servers_map`. -/
def Registry.empty : Registry :=
  { store := [], smap := [], nextAddr := 0, nextUuid := 0 }

/-- Dereference a server address. -/
def serverAt (a : Nat) (r : Registry) : Option FakeServer :=
  r.store.lookup a

/-- In-place update of the object stored at address `a`
(Python attribute assignment on a heap object). -/
def updateStore (a : Nat) (f : FakeServer → FakeServer) :
    List (Nat × FakeServer) → List (Nat × FakeServer)
  | [] => []
  | (b, s) :: rest =>
      if b = a then (b, f s) :: rest else (b, s) :: updateStore a f rest

/-- `self._server.connected = connected` on the object at address `a`. -/
def setConnected (a : Nat) (c : Bool) (r : Registry) : Registry :=
  { r with store := updateStore a (fun s => { s with connected := c }) r.store }

/-- `FakeServer.get_server(key, version)`:
`FakeServer._servers_map.setdefault(key, FakeServer(version=version))`.
Returns the stored object's address; inserts a fresh `FakeServer` at a fresh
address when the key is unmapped, and leaves the map untouched otherwise. -/
def FakeServer.get_server (key : String) (version : Nat) (r : Registry) :
    Nat × Registry :=
  match r.smap.lookup key with
  | some a => (a, r)
  | none =>
      let a := r.nextAddr
      (a, { r with
              store := (a, FakeServer.init version) :: r.store,
              smap := (key, a) :: r.smap,
              nextAddr := r.nextAddr + 1 })

/-- Python truthiness of the `path` keyword argument (`if path:`):
`None` and the empty string are falsy. -/
def pathTruthy : Option String → Bool
  | some p => p ≠ ""
  | none => false

/-- `uuid.uuid4().hex`, modelled as a counter-indexed string.  The claims
use it only through freshness hypotheses (a generated key not already in
`_servers_map`), mirroring the uniqueness of a random UUID. -/
def uuid4hex (n : Nat) : String :=
  "u" ++ Nat.repr n

/-- The version suffix `f'v{version}'` appended to every identity key. -/
def versionSuffix (version : Nat) : String :=
  "v" ++ Nat.repr version

/-- A value travelling through the response channel: byte strings (modelled
as lists of byte values), decoded text, integers, nested sequences, `None`,
and `redis.ResponseError` instances carrying a message. -/
inductive RValue where
  | bytes (bs : List Nat)
  | str (s : String)
  | int (n : Int)
  | list (xs : List RValue)
  | nil
  | err (msg : String)

/-- A `FakeSocket` handle as the connection sees it: bound to a server (by
address) and a database index, with its queue of pending responses.
Modelled from the spec: `FakeSocket` itself is the external command engine
("accepts a connected database index and yields a response-producing handle
exposing a blocking get-next-response operation and a non-blocking one"). -/
structure Sock where
  serverAddr : Nat
  db : Nat
  responses : List RValue

/-- The state of one `FakeConnection` as far as the claims observe it:
the bound server's address, the computed `server_key` (absent when an
explicit `server` was passed), the selected database index, the socket
handle `_sock` and the selector `_selector` (both start as `None`; the
selector records the socket it was built over). -/
structure ConnState where
  serverAddr : Nat
  serverKey : Option String
  db : Nat
  sock : Option Sock
  selector : Option Sock

/-- The `server_key` computation of `FakeBaseConnectionMixin.__init__`
(lines 51–56): the path verbatim if truthy, else `f'{host}:{port}'` when
both are present, else `uuid.uuid4().hex`; the version suffix is appended
in every case.  Returns the key together with the UUID seed left for later
draws (the generator is consumed only in the fabricated-key branch). -/
def FakeBaseConnectionMixin.serverKeyOf (path : Option String)
    (host : Option String) (port : Option Nat) (version : Nat)
    (uuidSeed : Nat) : String × Nat :=
  if pathTruthy path then (path.getD "" ++ versionSuffix version, uuidSeed)
  else
    match host, port with
    | some h, some p =>
        (h ++ ":" ++ Nat.repr p ++ versionSuffix version, uuidSeed)
    | _, _ => (uuid4hex uuidSeed ++ versionSuffix version, uuidSeed + 1)

/-- `FakeBaseConnectionMixin.__init__`, restricted to the keyword arguments
the claims mention: an explicit `server` handle (an address), `path`,
`version` (default 7), `connected` (default `True`), and the `host`/`port`
entries read back from the remaining kwargs.  When no explicit server is
given it derives the identity key, resolves the server through
`FakeServer.get_server` and overwrites that server's `connected` flag with
the `connected` argument. -/
def FakeBaseConnectionMixin.init (server : Option Nat) (path : Option String)
    (version : Nat) (connected : Bool) (host : Option String)
    (port : Option Nat) (db : Nat) (r : Registry) : ConnState × Registry :=
  match server with
  | some a =>
      ({ serverAddr := a, serverKey := none, db := db,
         sock := none, selector := none }, r)
  | none =>
      let ks := FakeBaseConnectionMixin.serverKeyOf path host port version
                  r.nextUuid
      let r1 := { r with nextUuid := ks.2 }
      let ar := FakeServer.get_server ks.1 version r1
      let r3 := setConnected ar.1 connected ar.2
      ({ serverAddr := ar.1, serverKey := some ks.1, db := db,
         sock := none, selector := none }, r3)

/-- The two exception kinds the layer can raise: `redis.ConnectionError`
(what real transport failures raise; the spec calls the connect-time one
ConnectionRefused and the read-time one ConnectionLost) and a propagated
`redis.ResponseError` carrying its message (the spec's RemoteError). -/
inductive RErr where
  | connectionError
  | responseError (msg : String)
deriving Repr, DecidableEq

/-- `FakeConnection._connect`: raise `redis.ConnectionError` if the bound
server state is not connected, else return a fresh `FakeSocket(self._server,
db=self.db)` — a command-engine handle bound to the connection's server and
selected database, with an initially empty response queue. -/
def FakeConnection._connect (c : ConnState) (r : Registry) : Except RErr Sock :=
  match serverAt c.serverAddr r with
  | some srv =>
      if srv.connected then
        Except.ok { serverAddr := c.serverAddr, db := c.db, responses := [] }
      else
        Except.error RErr.connectionError
  | none => Except.error RErr.connectionError

/-- `FakeConnection.connect`: `super().connect()` (the wrapped library's
`redis.Connection.connect`, which returns at once when a socket already
exists and otherwise stores the socket produced by `_connect`, propagating
its error), then `self._selector = FakeSelector(self._sock)`. -/
def FakeConnection.connect (c : ConnState) (r : Registry) :
    Except RErr ConnState := do
  let c1 ←
    match c.sock with
    | some _ => Except.ok c
    | none => do
        let s ← FakeConnection._connect c r
        Except.ok { c with sock := some s }
  Except.ok { c1 with selector := c1.sock }

/-- `FakeSelector.check_can_read(timeout)`.  Modelled from the spec:
`FakeSelector` is absent from the sources; the spec says the Readiness
Selector "answers whether a response is currently available, with optional
bounded wait", "returning false on timeout with no data available".  In
this timeless model it reports whether the socket's response queue is
non-empty; the timeout only bounds the wait and is otherwise irrelevant. -/
def FakeSelector.check_can_read (s : Sock) (_timeout : Option Nat) : Bool :=
  !s.responses.isEmpty

/-- `FakeConnection.can_read(timeout)`: return `True` at once when the bound
server state is not connected; otherwise connect first if no socket exists
yet, then delegate to `self._selector.check_can_read(timeout)`. -/
def FakeConnection.can_read (c : ConnState) (r : Registry)
    (timeout : Option Nat) : Except RErr (Bool × ConnState) :=
  match serverAt c.serverAddr r with
  | some srv =>
      if srv.connected then do
        let c1 ← if c.sock.isNone then FakeConnection.connect c r
                 else Except.ok c
        match c1.selector with
        | some s => Except.ok (FakeSelector.check_can_read s timeout, c1)
        | none => Except.error RErr.connectionError
      else
        Except.ok (true, c)
  | none => Except.error RErr.connectionError

mutual

/-- `FakeConnection._decode`: lists decode element-wise, `bytes` leaves
decode through `self.encoder.decode` (the wrapped library's text decoder,
passed here as the function `dec`), everything else passes through. -/
def FakeConnection._decode (dec : List Nat → String) : RValue → RValue
  | RValue.list xs => RValue.list (FakeConnection._decodeList dec xs)
  | RValue.bytes bs => RValue.str (dec bs)
  | RValue.str s => RValue.str s
  | RValue.int n => RValue.int n
  | RValue.nil => RValue.nil
  | RValue.err m => RValue.err m

/-- Element-wise decoding of a response list (`[self._decode(item) for item
in response]`). -/
def FakeConnection._decodeList (dec : List Nat → String) :
    List RValue → List RValue
  | [] => []
  | x :: xs =>
      FakeConnection._decode dec x :: FakeConnection._decodeList dec xs

end

/-- `redis.Connection.disconnect` (wrapped library): close and drop the
socket (`self._sock = None`). -/
def FakeConnection.disconnect (c : ConnState) : ConnState :=
  { c with sock := none }

/-- The keyword options `read_response` consults, with their Python
defaults: `kwargs.get('disconnect_on_error', True)` and
`kwargs.get('disable_decoding', False)`. -/
structure ReadKwargs where
  disconnect_on_error : Bool := true
  disable_decoding : Bool := false
deriving Repr, DecidableEq

/-- What a call to `read_response` does: return a value, raise an
exception, or block forever (the blocking `Queue.get` on an empty queue). -/
inductive ReadOutcome where
  | value (v : RValue)
  | raised (e : RErr)
  | blocks

/-- The tail of `read_response` shared by both fetch branches: a fetched
`redis.ResponseError` is raised as is; otherwise the value is returned,
decoded unless `disable_decoding` is set. -/
def FakeConnection.respond (dec : List Nat → String) (kw : ReadKwargs)
    (v : RValue) (c : ConnState) : ReadOutcome × ConnState :=
  match v with
  | RValue.err m => (ReadOutcome.raised (RErr.responseError m), c)
  | v =>
      if kw.disable_decoding then (ReadOutcome.value v, c)
      else (ReadOutcome.value (FakeConnection._decode dec v), c)

/-- `FakeConnection.read_response(**kwargs)`: when the bound server state is
not connected, try a non-blocking `self._sock.responses.get_nowait()` — on
an empty queue, disconnect if `disconnect_on_error` and raise
`redis.ConnectionError`; when connected, do a blocking
`self._sock.responses.get()` (which never returns on an empty queue).  The
fetched value then goes through the shared error/decoding tail. -/
def FakeConnection.read_response (dec : List Nat → String) (c : ConnState)
    (r : Registry) (kw : ReadKwargs) : ReadOutcome × ConnState :=
  match serverAt c.serverAddr r, c.sock with
  | some srv, some sock =>
      if srv.connected then
        match sock.responses with
        | [] => (ReadOutcome.blocks, c)
        | v :: rest =>
            FakeConnection.respond dec kw v
              { c with sock := some { sock with responses := rest } }
      else
        match sock.responses with
        | [] =>
            (ReadOutcome.raised RErr.connectionError,
             if kw.disconnect_on_error then FakeConnection.disconnect c else c)
        | v :: rest =>
            FakeConnection.respond dec kw v
              { c with sock := some { sock with responses := rest } }
  | _, _ => (ReadOutcome.raised RErr.connectionError, c)

/-- Whether a response value is the error-signaling kind (the
`isinstance(response, redis.ResponseError)` test of `read_response`). -/
def isErrValue : RValue → Bool
  | RValue.err _ => true
  | _ => false

mutual

/-- Whether a response value still contains a byte-like leaf (used to state
that decoding is a no-op on already-decoded values). -/
def hasByteLeaf : RValue → Bool
  | RValue.bytes _ => true
  | RValue.list xs => hasByteLeafList xs
  | RValue.str _ => false
  | RValue.int _ => false
  | RValue.nil => false
  | RValue.err _ => false

/-- Whether any element of a response list contains a byte-like leaf. -/
def hasByteLeafList : List RValue → Bool
  | [] => false
  | x :: xs => hasByteLeaf x || hasByteLeafList xs

end

/-- The keyword options of `FakeRedisMixin.__init__` that the legacy-option
translation reads and writes, plus whether a truthy `connection_pool` was
supplied (the translation only runs when it was not). -/
structure RedisKwds where
  connection_pool : Bool := false
  charset : Option String := none
  errors : Option String := none
  encoding : Option String := none
  encoding_errors : Option String := none
deriving Repr, DecidableEq

/-- The deprecation warnings `FakeRedisMixin.__init__` can emit. -/
inductive Warning where
  | charsetDeprecated
  | errorsDeprecated
deriving Repr, DecidableEq

/-- The legacy-option fragment of `FakeRedisMixin.__init__`: when no
connection pool was supplied, a non-`None` `charset` emits one deprecation
warning and is written into `encoding`, and a non-`None` `errors` emits one
deprecation warning and is written into `encoding_errors`.  Returns the
updated options and the warnings emitted, in order. -/
def FakeRedisMixin.init_legacy (k : RedisKwds) : RedisKwds × List Warning :=
  if k.connection_pool then (k, [])
  else
    let (k1, w1) :=
      match k.charset with
      | some c => ({ k with encoding := some c }, [Warning.charsetDeprecated])
      | none => (k, [])
    let (k2, w2) :=
      match k1.errors with
      | some e =>
          ({ k1 with encoding_errors := some e }, [Warning.errorsDeprecated])
      | none => (k1, [])
    (k2, w1 ++ w2)

/-- The connection class installed on a pool. -/
inductive ConnClass where
  | realConnection
  | fakeConnection
deriving Repr, DecidableEq

/-- A connection pool as produced by the wrapped library's URL parser
(`redis.ConnectionPool.from_url`): the connection class and the parsed
connection kwargs — credentials, host, port, database index, and the
remaining query parameters as an opaque key/value list. -/
structure ParsedPool where
  connection_class : ConnClass
  username : Option String
  password : Option String
  host : Option String
  port : Option Nat
  db : Nat
  extra : List (String × String)
deriving Repr, DecidableEq

/-- `FakeRedisMixin.from_url`, applied to the pool the wrapped library's
parser produced from the URL: override the pool's connection class with
`FakeConnection` and pop `username` and `password` from the connection
kwargs, leaving every other parsed field alone; the client is then built
around this pool. -/
def FakeRedisMixin.from_url (p : ParsedPool) : ParsedPool :=
  { p with
      connection_class := ConnClass.fakeConnection,
      username := none,
      password := none }

/-! ## Registry lemmas -/

/-- After `get_server`, the key is mapped to the returned address. -/
theorem get_server_lookup_self (k : String) (v : Nat) (r : Registry) :
    ((FakeServer.get_server k v r).2).smap.lookup k
      = some (FakeServer.get_server k v r).1 := by
  unfold FakeServer.get_server
  cases h : r.smap.lookup k with
  | some a => exact h
  | none => simp [List.lookup]

/-- `get_server` never replaces an existing mapping. -/
theorem get_server_preserves (k k' : String) (v : Nat) (r : Registry)
    (a' : Nat) (h' : r.smap.lookup k' = some a') :
    ((FakeServer.get_server k v r).2).smap.lookup k' = some a' := by
  unfold FakeServer.get_server
  cases h : r.smap.lookup k with
  | some a => exact h'
  | none =>
      have hne : (k' == k) = false := by
        rcases eq_or_ne k' k with rfl | hkk
        · rw [h'] at h; cases h
        · simp [hkk]
      simp [List.lookup, hne, h']

/-- On an already-mapped key, `get_server` returns the stored address and
leaves the world untouched, whatever version is passed. -/
theorem get_server_mapped (k : String) (v : Nat) (r : Registry) (a : Nat)
    (h : r.smap.lookup k = some a) :
    FakeServer.get_server k v r = (a, r) := by
  unfold FakeServer.get_server
  simp [h]

/-- On a fresh key, `get_server` allocates `nextAddr`, stores a fresh
connected server there, records the mapping, and bumps `nextAddr`. -/
theorem get_server_fresh (k : String) (v : Nat) (r : Registry)
    (h : r.smap.lookup k = none) :
    FakeServer.get_server k v r
      = (r.nextAddr,
         { r with
             store := (r.nextAddr, FakeServer.init v) :: r.store,
             smap := (k, r.nextAddr) :: r.smap,
             nextAddr := r.nextAddr + 1 }) := by
  unfold FakeServer.get_server
  simp [h]

/-- `setConnected` only touches the store. -/
theorem setConnected_smap (a : Nat) (c : Bool) (r : Registry) :
    (setConnected a c r).smap = r.smap := rfl

/-- `setConnected` does not allocate. -/
theorem setConnected_nextAddr (a : Nat) (c : Bool) (r : Registry) :
    (setConnected a c r).nextAddr = r.nextAddr := rfl

/-- Updating the object at an address is seen by a lookup of that
address. -/
theorem updateStore_lookup (a : Nat) (f : FakeServer → FakeServer) :
    ∀ l : List (Nat × FakeServer),
      (updateStore a f l).lookup a = (l.lookup a).map f
  | [] => rfl
  | (b, s) :: rest => by
      rcases eq_or_ne b a with rfl | hb
      · simp [updateStore, List.lookup]
      · have hab : (a == b) = false := by simp [Ne.symm hb]
        simp [updateStore, hb, List.lookup, hab, updateStore_lookup a f rest]

/-- The server seen through an address after `setConnected` on it. -/
theorem serverAt_setConnected (a : Nat) (c : Bool) (r : Registry) :
    serverAt a (setConnected a c r)
      = (serverAt a r).map (fun s => { s with connected := c }) := by
  simp [serverAt, setConnected, updateStore_lookup]

/-- `get_server` leaves the UUID seed alone. -/
theorem get_server_nextUuid (k : String) (v : Nat) (r : Registry) :
    ((FakeServer.get_server k v r).2).nextUuid = r.nextUuid := by
  unfold FakeServer.get_server
  cases h : r.smap.lookup k with
  | some a => rfl
  | none => rfl

/-! ## Identity-key lemmas -/

/-- A truthy path is used verbatim, with the version suffix appended. -/
theorem serverKeyOf_path (p : String) (hp : p ≠ "") (host : Option String)
    (port : Option Nat) (v seed : Nat) :
    FakeBaseConnectionMixin.serverKeyOf (some p) host port v seed
      = (p ++ versionSuffix v, seed) := by
  simp [FakeBaseConnectionMixin.serverKeyOf, pathTruthy, hp]

/-- Without a truthy path, a known host and port yield `host:port` plus the
version suffix. -/
theorem serverKeyOf_hostport (h : String) (p : Nat) (v seed : Nat) :
    FakeBaseConnectionMixin.serverKeyOf none (some h) (some p) v seed
      = (h ++ ":" ++ Nat.repr p ++ versionSuffix v, seed) := by
  simp [FakeBaseConnectionMixin.serverKeyOf, pathTruthy]

/-- With neither path nor host/port, a fabricated unique string is drawn
from the generator, with the version suffix appended. -/
theorem serverKeyOf_uuid (v seed : Nat) :
    FakeBaseConnectionMixin.serverKeyOf none none none v seed
      = (uuid4hex seed ++ versionSuffix v, seed + 1) := by
  simp [FakeBaseConnectionMixin.serverKeyOf, pathTruthy]

/-! ## Connection-construction lemmas -/

/-- After constructing a connection without an explicit server, the world
maps the computed identity key to that connection's server address. -/
theorem init_lookup_self (path host : Option String) (port : Option Nat)
    (v : Nat) (cn : Bool) (db : Nat) (r : Registry) :
    ((FakeBaseConnectionMixin.init none path v cn host port db r).2).smap.lookup
        ((FakeBaseConnectionMixin.serverKeyOf path host port v r.nextUuid).1)
      = some ((FakeBaseConnectionMixin.init none path v cn host port db
                  r).1.serverAddr) :=
  get_server_lookup_self _ v _

/-- A connection whose identity key is already mapped binds to the mapped
address. -/
theorem init_addr_of_mapped (path host : Option String) (port : Option Nat)
    (v : Nat) (cn : Bool) (db : Nat) (r : Registry) (a : Nat)
    (h : r.smap.lookup
           ((FakeBaseConnectionMixin.serverKeyOf path host port v
               r.nextUuid).1) = some a) :
    (FakeBaseConnectionMixin.init none path v cn host port db r).1.serverAddr
      = a := by
  show (FakeServer.get_server
          (FakeBaseConnectionMixin.serverKeyOf path host port v r.nextUuid).1 v
          { r with
              nextUuid := (FakeBaseConnectionMixin.serverKeyOf path host port
                  v r.nextUuid).2 }).1 = a
  rw [get_server_mapped
        (FakeBaseConnectionMixin.serverKeyOf path host port v r.nextUuid).1 v
        { r with
            nextUuid := (FakeBaseConnectionMixin.serverKeyOf path host port
                v r.nextUuid).2 } a h]

/-- A connection whose identity key is unmapped allocates the next address
and bumps the allocator. -/
theorem init_addr_of_fresh (path host : Option String) (port : Option Nat)
    (v : Nat) (cn : Bool) (db : Nat) (r : Registry)
    (h : r.smap.lookup
           ((FakeBaseConnectionMixin.serverKeyOf path host port v
               r.nextUuid).1) = none) :
    (FakeBaseConnectionMixin.init none path v cn host port db r).1.serverAddr
      = r.nextAddr
  ∧ ((FakeBaseConnectionMixin.init none path v cn host port db
        r).2).nextAddr = r.nextAddr + 1 := by
  have hf := get_server_fresh
      (FakeBaseConnectionMixin.serverKeyOf path host port v r.nextUuid).1 v
      { r with
          nextUuid := (FakeBaseConnectionMixin.serverKeyOf path host port
              v r.nextUuid).2 } h
  constructor
  · show (FakeServer.get_server
            (FakeBaseConnectionMixin.serverKeyOf path host port v
              r.nextUuid).1 v
            { r with
                nextUuid := (FakeBaseConnectionMixin.serverKeyOf path host
                    port v r.nextUuid).2 }).1 = r.nextAddr
    rw [hf]
  · show ((FakeServer.get_server
            (FakeBaseConnectionMixin.serverKeyOf path host port v
              r.nextUuid).1 v
            { r with
                nextUuid := (FakeBaseConnectionMixin.serverKeyOf path host
                    port v r.nextUuid).2 }).2).nextAddr = r.nextAddr + 1
    rw [hf]

/-- Constructing a connection preserves every existing registry mapping. -/
theorem init_smap_preserves (path host : Option String) (port : Option Nat)
    (v : Nat) (cn : Bool) (db : Nat) (r : Registry) (k : String) (a : Nat)
    (h : r.smap.lookup k = some a) :
    ((FakeBaseConnectionMixin.init none path v cn host port db
        r).2).smap.lookup k = some a :=
  get_server_preserves _ k v _ a h

/-- The UUID seed after constructing a connection is the seed the key
computation left behind. -/
theorem init_nextUuid (path host : Option String) (port : Option Nat)
    (v : Nat) (cn : Bool) (db : Nat) (r : Registry) :
    ((FakeBaseConnectionMixin.init none path v cn host port db
        r).2).nextUuid
      = (FakeBaseConnectionMixin.serverKeyOf path host port v r.nextUuid).2 :=
  get_server_nextUuid _ v _

/-- The computed `server_key` of a connection built without an explicit
server. -/
theorem init_serverKey (path host : Option String) (port : Option Nat)
    (v : Nat) (cn : Bool) (db : Nat) (r : Registry) :
    (FakeBaseConnectionMixin.init none path v cn host port db r).1.serverKey
      = some ((FakeBaseConnectionMixin.serverKeyOf path host port v
                  r.nextUuid).1) := rfl

/-- The shared tail of `read_response` on a value that is not
error-signaling: return it, decoded unless decoding was opted out. -/
theorem respond_not_err (dec : List Nat → String) (kw : ReadKwargs)
    (v : RValue) (c : ConnState) (h : isErrValue v = false) :
    FakeConnection.respond dec kw v c
      = if kw.disable_decoding then (ReadOutcome.value v, c)
        else (ReadOutcome.value (FakeConnection._decode dec v), c) := by
  cases v with
  | err m => simp [isErrValue] at h
  | bytes bs => rfl
  | str s => rfl
  | int n => rfl
  | list xs => rfl
  | nil => rfl

/-! ## Decoding lemmas -/

/-- Decoding a response list is element-wise `map`. -/
theorem decodeList_eq_map (dec : List Nat → String) :
    ∀ xs : List RValue,
      FakeConnection._decodeList dec xs = xs.map (FakeConnection._decode dec)
  | [] => rfl
  | x :: xs => by
      rw [FakeConnection._decodeList, List.map_cons, decodeList_eq_map dec xs]

mutual

/-- A decoded value has no byte-like leaf left. -/
theorem decode_no_byte (dec : List Nat → String) :
    ∀ v : RValue, hasByteLeaf (FakeConnection._decode dec v) = false
  | RValue.bytes bs => rfl
  | RValue.str s => rfl
  | RValue.int n => rfl
  | RValue.nil => rfl
  | RValue.err m => rfl
  | RValue.list xs => by
      rw [FakeConnection._decode, hasByteLeaf]
      exact decodeList_no_byte dec xs

/-- A decoded response list has no byte-like leaf left. -/
theorem decodeList_no_byte (dec : List Nat → String) :
    ∀ xs : List RValue,
      hasByteLeafList (FakeConnection._decodeList dec xs) = false
  | [] => rfl
  | x :: xs => by
      rw [FakeConnection._decodeList, hasByteLeafList,
          decode_no_byte dec x, decodeList_no_byte dec xs]
      rfl

end

mutual

/-- Decoding is the identity on values without byte-like leaves. -/
theorem decode_id_of_no_byte (dec : List Nat → String) :
    ∀ v : RValue, hasByteLeaf v = false → FakeConnection._decode dec v = v
  | RValue.bytes bs => by intro h; simp [hasByteLeaf] at h
  | RValue.str s => fun _ => rfl
  | RValue.int n => fun _ => rfl
  | RValue.nil => fun _ => rfl
  | RValue.err m => fun _ => rfl
  | RValue.list xs => by
      intro h
      rw [hasByteLeaf] at h
      rw [FakeConnection._decode, decodeList_id_of_no_byte dec xs h]

/-- Element-wise decoding is the identity on lists without byte-like
leaves. -/
theorem decodeList_id_of_no_byte (dec : List Nat → String) :
    ∀ xs : List RValue,
      hasByteLeafList xs = false → FakeConnection._decodeList dec xs = xs
  | [] => fun _ => rfl
  | x :: xs => by
      intro h
      rw [hasByteLeafList] at h
      rcases Bool.or_eq_false_iff.mp h with ⟨h1, h2⟩
      rw [FakeConnection._decodeList, decode_id_of_no_byte dec x h1,
          decodeList_id_of_no_byte dec xs h2]

end

/-! ## Claims -/

/-- C1: the identity key is the explicit path verbatim when given, else
`host:port` when both are known, else a fresh fabricated string, always
with the version suffix appended; consequently two connections built with
the same truthy path and version, or with the same host, port and version,
bind to the same server state object, while two connections with host and
port both omitted bind to distinct server states (given that the fabricated
keys are indeed fresh, as random UUIDs are). -/
theorem claim_C1 (r : Registry) (pth hh : String) (pp v : Nat)
    (cn1 cn2 : Bool) (db1 db2 : Nat) (host1 host2 : Option String)
    (port1 port2 : Option Nat)
    (hpth : pth ≠ "")
    (hf1 : r.smap.lookup (uuid4hex r.nextUuid ++ versionSuffix v) = none)
    (hf2 : ((FakeBaseConnectionMixin.init none none v cn1 none none db1
               r).2).smap.lookup
             (uuid4hex (r.nextUuid + 1) ++ versionSuffix v) = none) :
    (FakeBaseConnectionMixin.init none (some pth) v cn1 host1 port1 db1
        r).1.serverKey = some (pth ++ versionSuffix v)
  ∧ (FakeBaseConnectionMixin.init none none v cn1 (some hh) (some pp) db1
        r).1.serverKey = some (hh ++ ":" ++ Nat.repr pp ++ versionSuffix v)
  ∧ (FakeBaseConnectionMixin.init none none v cn1 none none db1
        r).1.serverKey = some (uuid4hex r.nextUuid ++ versionSuffix v)
  ∧ (FakeBaseConnectionMixin.init none (some pth) v cn2 host2 port2 db2
        (FakeBaseConnectionMixin.init none (some pth) v cn1 host1 port1 db1
            r).2).1.serverAddr
      = (FakeBaseConnectionMixin.init none (some pth) v cn1 host1 port1 db1
            r).1.serverAddr
  ∧ (FakeBaseConnectionMixin.init none none v cn2 (some hh) (some pp) db2
        (FakeBaseConnectionMixin.init none none v cn1 (some hh) (some pp) db1
            r).2).1.serverAddr
      = (FakeBaseConnectionMixin.init none none v cn1 (some hh) (some pp) db1
            r).1.serverAddr
  ∧ (FakeBaseConnectionMixin.init none none v cn2 none none db2
        (FakeBaseConnectionMixin.init none none v cn1 none none db1
            r).2).1.serverAddr
      ≠ (FakeBaseConnectionMixin.init none none v cn1 none none db1
            r).1.serverAddr := by
  refine ⟨?_, ?_, ?_, ?_, ?_, ?_⟩
  · rw [init_serverKey]
    simp only [serverKeyOf_path pth hpth]
  · rw [init_serverKey]
    simp only [serverKeyOf_hostport]
  · rw [init_serverKey]
    simp only [serverKeyOf_uuid]
  · have base := init_lookup_self (some pth) host1 port1 v cn1 db1 r
    apply init_addr_of_mapped
    simp only [serverKeyOf_path pth hpth] at base ⊢
    exact base
  · have base := init_lookup_self none (some hh) (some pp) v cn1 db1 r
    apply init_addr_of_mapped
    simp only [serverKeyOf_hostport] at base ⊢
    exact base
  · have h1 : r.smap.lookup
        ((FakeBaseConnectionMixin.serverKeyOf none none none v
            r.nextUuid).1) = none := by
      simp only [serverKeyOf_uuid]
      exact hf1
    have hfr1 := init_addr_of_fresh none none none v cn1 db1 r h1
    have hu : ((FakeBaseConnectionMixin.init none none v cn1 none none db1
        r).2).nextUuid = r.nextUuid + 1 := by
      rw [init_nextUuid]
      simp only [serverKeyOf_uuid]
    have h2 : ((FakeBaseConnectionMixin.init none none v cn1 none none db1
        r).2).smap.lookup
          ((FakeBaseConnectionMixin.serverKeyOf none none none v
              ((FakeBaseConnectionMixin.init none none v cn1 none none db1
                  r).2).nextUuid).1) = none := by
      rw [hu]
      simp only [serverKeyOf_uuid]
      exact hf2
    have hfr2 := init_addr_of_fresh none none none v cn2 db2
        (FakeBaseConnectionMixin.init none none v cn1 none none db1 r).2 h2
    rw [hfr2.1, hfr1.1, hfr1.2]
    exact Nat.succ_ne_self r.nextAddr

/-- Witness for C1 at concrete inputs: in the empty world, two connections
built with host and port both omitted bind to distinct server states. -/
theorem claim_C1_witness :
    (FakeBaseConnectionMixin.init none none 7 true none none 0
        (FakeBaseConnectionMixin.init none none 7 true none none 0
            Registry.empty).2).1.serverAddr
      ≠ (FakeBaseConnectionMixin.init none none 7 true none none 0
            Registry.empty).1.serverAddr :=
  (claim_C1 Registry.empty "p" "h" 1 7 true true 0 0 none none none none
      (by decide) rfl rfl).2.2.2.2.2

/-- C2: the registry's get-or-create is idempotent for identical keys: the
first call with a fresh key allocates, stores and maps a new server state;
every subsequent call with the same key returns the very same state object
and leaves the world untouched, regardless of the version argument or call
order; and no existing mapping is ever replaced. -/
theorem claim_C2 (k : String) (v1 v2 : Nat) (r : Registry)
    (hnew : r.smap.lookup k = none) :
    (FakeServer.get_server k v1 r).1 = r.nextAddr
  ∧ ((FakeServer.get_server k v1 r).2).smap.lookup k
      = some (FakeServer.get_server k v1 r).1
  ∧ serverAt (FakeServer.get_server k v1 r).1 (FakeServer.get_server k v1 r).2
      = some (FakeServer.init v1)
  ∧ FakeServer.get_server k v2 (FakeServer.get_server k v1 r).2
      = ((FakeServer.get_server k v1 r).1, (FakeServer.get_server k v1 r).2)
  ∧ (∀ (r' : Registry) (a : Nat), r'.smap.lookup k = some a →
        FakeServer.get_server k v2 r' = (a, r'))
  ∧ (∀ (k' : String) (a' : Nat), r.smap.lookup k' = some a' →
        ((FakeServer.get_server k v1 r).2).smap.lookup k' = some a') := by
  have hf := get_server_fresh k v1 r hnew
  refine ⟨?_, get_server_lookup_self k v1 r, ?_,
          get_server_mapped k v2 _ _ (get_server_lookup_self k v1 r),
          fun r' a h => get_server_mapped k v2 r' a h,
          fun k' a' h' => get_server_preserves k k' v1 r a' h'⟩
  · rw [hf]
  · rw [hf]; simp [serverAt, List.lookup]

/-- Witness for C2 at a concrete key and world: a second `get_server` with
a different version returns the address the first call allocated and leaves
the registry unchanged. -/
theorem claim_C2_witness :
    FakeServer.get_server "srv" 7 (FakeServer.get_server "srv" 6 Registry.empty).2
      = ((FakeServer.get_server "srv" 6 Registry.empty).1,
         (FakeServer.get_server "srv" 6 Registry.empty).2) :=
  (claim_C2 "srv" 6 7 Registry.empty rfl).2.2.2.1

/-- C3: on a connection whose bound server state is not connected,
`connect()` raises the connection error a real transport failure would
raise; on a connected server state it stores a command-engine handle bound
to the connection's server and selected database index and initializes the
Readiness Selector over that very handle. -/
theorem claim_C3 (c : ConnState) (r : Registry) (srv : FakeServer)
    (hs : serverAt c.serverAddr r = some srv) (hsock : c.sock = none) :
    (srv.connected = false →
       FakeConnection.connect c r = Except.error RErr.connectionError)
  ∧ (srv.connected = true →
       FakeConnection.connect c r
         = Except.ok
             { c with
                 sock := some
                   { serverAddr := c.serverAddr, db := c.db, responses := [] },
                 selector := some
                   { serverAddr := c.serverAddr, db := c.db,
                     responses := [] } }) := by
  constructor
  · intro hdown
    simp [FakeConnection.connect, FakeConnection._connect, hs, hsock, hdown,
          Bind.bind, Except.bind]
  · intro hup
    simp [FakeConnection.connect, FakeConnection._connect, hs, hsock, hup,
          Bind.bind, Except.bind]

/-- Witness for C3 at concrete inputs: connecting to a server state marked
not-connected raises the connection error. -/
theorem claim_C3_witness :
    FakeConnection.connect
      { serverAddr := 0, serverKey := some "av7", db := 0, sock := none,
        selector := none }
      { store := [(0, { connected := false, version := 7 })],
        smap := [("av7", 0)], nextAddr := 1, nextUuid := 0 }
      = Except.error RErr.connectionError :=
  (claim_C3
      { serverAddr := 0, serverKey := some "av7", db := 0, sock := none,
        selector := none }
      { store := [(0, { connected := false, version := 7 })],
        smap := [("av7", 0)], nextAddr := 1, nextUuid := 0 }
      { connected := false, version := 7 } rfl rfl).1 rfl

/-- C4: `can_read` returns ready immediately when the bound server state is
not connected, for any timeout; on a connected server an unconnected
connection connects first (and with its fresh empty queue reports not
ready), an already-connected one delegates to the Readiness Selector with
the given timeout, and the selector answers false when no data is
available. -/
theorem claim_C4 (c : ConnState) (r : Registry) (srv : FakeServer)
    (t : Option Nat)
    (hs : serverAt c.serverAddr r = some srv) :
    (srv.connected = false →
       FakeConnection.can_read c r t = Except.ok (true, c))
  ∧ (srv.connected = true → c.sock = none →
       FakeConnection.can_read c r t
         = Except.ok (false,
             { c with
                 sock := some
                   { serverAddr := c.serverAddr, db := c.db, responses := [] },
                 selector := some
                   { serverAddr := c.serverAddr, db := c.db,
                     responses := [] } }))
  ∧ (srv.connected = true → ∀ s : Sock, c.sock = some s → c.selector = some s →
       FakeConnection.can_read c r t
         = Except.ok (FakeSelector.check_can_read s t, c))
  ∧ (∀ s : Sock, s.responses = [] → FakeSelector.check_can_read s t = false) := by
  refine ⟨?_, ?_, ?_, ?_⟩
  · intro hdown
    simp [FakeConnection.can_read, hs, hdown]
  · intro hup hsock
    simp [FakeConnection.can_read, hs, hup, hsock, FakeConnection.connect,
          FakeConnection._connect, FakeSelector.check_can_read,
          Bind.bind, Except.bind]
  · intro hup s hsock hsel
    simp [FakeConnection.can_read, hs, hup, hsock, hsel,
          Bind.bind, Except.bind]
  · intro s hempty
    simp [FakeSelector.check_can_read, hempty]

/-- Witness for C4 at concrete inputs: on a downed server state,
`can_read` reports ready at once. -/
theorem claim_C4_witness :
    FakeConnection.can_read
      { serverAddr := 0, serverKey := some "av7", db := 0, sock := none,
        selector := none }
      { store := [(0, { connected := false, version := 7 })],
        smap := [("av7", 0)], nextAddr := 1, nextUuid := 0 }
      (some 5)
      = Except.ok (true,
          { serverAddr := 0, serverKey := some "av7", db := 0, sock := none,
            selector := none }) :=
  (claim_C4
      { serverAddr := 0, serverKey := some "av7", db := 0, sock := none,
        selector := none }
      { store := [(0, { connected := false, version := 7 })],
        smap := [("av7", 0)], nextAddr := 1, nextUuid := 0 }
      { connected := false, version := 7 } (some 5) rfl).1 rfl

/-- C5: on a not-connected server state, `read_response` fetches without
blocking: an already-buffered response is returned (decoded per the
options, exactly one removed from the queue), and an empty queue raises a
connection error at once, disconnecting first exactly when the
disconnect-on-error option (default true) is set; on a connected server it
performs a blocking fetch of exactly one queued response, blocking forever
when nothing is queued. -/
theorem claim_C5 (dec : List Nat → String) (c : ConnState) (r : Registry)
    (srv : FakeServer) (sock : Sock) (kw : ReadKwargs)
    (hs : serverAt c.serverAddr r = some srv) (hsock : c.sock = some sock) :
    (srv.connected = false → sock.responses = [] →
       FakeConnection.read_response dec c r kw
         = (ReadOutcome.raised RErr.connectionError,
            if kw.disconnect_on_error then { c with sock := none } else c))
  ∧ (srv.connected = false → ∀ (v : RValue) (rest : List RValue),
       sock.responses = v :: rest → isErrValue v = false →
       FakeConnection.read_response dec c r kw
         = (ReadOutcome.value
              (if kw.disable_decoding then v
               else FakeConnection._decode dec v),
            { c with sock := some { sock with responses := rest } }))
  ∧ (srv.connected = true → ∀ (v : RValue) (rest : List RValue),
       sock.responses = v :: rest → isErrValue v = false →
       FakeConnection.read_response dec c r kw
         = (ReadOutcome.value
              (if kw.disable_decoding then v
               else FakeConnection._decode dec v),
            { c with sock := some { sock with responses := rest } }))
  ∧ (srv.connected = true → sock.responses = [] →
       FakeConnection.read_response dec c r kw = (ReadOutcome.blocks, c))
  ∧ ({} : ReadKwargs).disconnect_on_error = true := by
  refine ⟨?_, ?_, ?_, ?_, rfl⟩
  · intro hdown hempty
    simp [FakeConnection.read_response, hs, hsock, hdown, hempty,
          FakeConnection.disconnect]
  · intro hdown v rest hresp hv
    rw [show FakeConnection.read_response dec c r kw
          = FakeConnection.respond dec kw v
              { c with sock := some { sock with responses := rest } } by
        simp [FakeConnection.read_response, hs, hsock, hdown, hresp]]
    rw [respond_not_err dec kw v _ hv]
    cases hd : kw.disable_decoding <;> simp [hd]
  · intro hup v rest hresp hv
    rw [show FakeConnection.read_response dec c r kw
          = FakeConnection.respond dec kw v
              { c with sock := some { sock with responses := rest } } by
        simp [FakeConnection.read_response, hs, hsock, hup, hresp]]
    rw [respond_not_err dec kw v _ hv]
    cases hd : kw.disable_decoding <;> simp [hd]
  · intro hup hempty
    simp [FakeConnection.read_response, hs, hsock, hup, hempty]

/-- Witness for C5 at concrete inputs: on a downed server with nothing
buffered and default options, `read_response` disconnects and raises the
connection error without blocking. -/
theorem claim_C5_witness :
    FakeConnection.read_response (fun _ => "")
      { serverAddr := 0, serverKey := some "av7", db := 0,
        sock := some { serverAddr := 0, db := 0, responses := [] },
        selector := none }
      { store := [(0, { connected := false, version := 7 })],
        smap := [("av7", 0)], nextAddr := 1, nextUuid := 0 }
      {}
      = (ReadOutcome.raised RErr.connectionError,
         if ({} : ReadKwargs).disconnect_on_error then
           { serverAddr := 0, serverKey := some "av7", db := 0, sock := none,
             selector := none }
         else
           { serverAddr := 0, serverKey := some "av7", db := 0,
             sock := some { serverAddr := 0, db := 0, responses := [] },
             selector := none } ) :=
  (claim_C5 (fun _ => "")
      { serverAddr := 0, serverKey := some "av7", db := 0,
        sock := some { serverAddr := 0, db := 0, responses := [] },
        selector := none }
      { store := [(0, { connected := false, version := 7 })],
        smap := [("av7", 0)], nextAddr := 1, nextUuid := 0 }
      { connected := false, version := 7 }
      { serverAddr := 0, db := 0, responses := [] } {} rfl rfl).1 rfl rfl

/-- C6: a fetched error-signaling response value is raised immediately as
received, whatever the server's connectivity and whatever decoding options
the caller passed: the error's message is preserved exactly, and decoding
is bypassed entirely. -/
theorem claim_C6 (dec : List Nat → String) (c : ConnState) (r : Registry)
    (srv : FakeServer) (sock : Sock) (m : String) (rest : List RValue)
    (kw : ReadKwargs)
    (hs : serverAt c.serverAddr r = some srv) (hsock : c.sock = some sock)
    (hresp : sock.responses = RValue.err m :: rest) :
    FakeConnection.read_response dec c r kw
      = (ReadOutcome.raised (RErr.responseError m),
         { c with sock := some { sock with responses := rest } }) := by
  cases hconn : srv.connected <;>
    simp [FakeConnection.read_response, hs, hsock, hresp, hconn,
          FakeConnection.respond]

/-- Witness for C6 at concrete inputs: a buffered `ResponseError` with
message `boom` is raised verbatim even though decoding was requested. -/
theorem claim_C6_witness :
    FakeConnection.read_response (fun _ => "decoded")
      { serverAddr := 0, serverKey := some "av7", db := 0,
        sock := some
          { serverAddr := 0, db := 0, responses := [RValue.err "boom"] },
        selector := none }
      { store := [(0, { connected := true, version := 7 })],
        smap := [("av7", 0)], nextAddr := 1, nextUuid := 0 }
      {}
      = (ReadOutcome.raised (RErr.responseError "boom"),
         { serverAddr := 0, serverKey := some "av7", db := 0,
           sock := some { serverAddr := 0, db := 0, responses := [] },
           selector := none }) :=
  claim_C6 (fun _ => "decoded")
      { serverAddr := 0, serverKey := some "av7", db := 0,
        sock := some
          { serverAddr := 0, db := 0, responses := [RValue.err "boom"] },
        selector := none }
      { store := [(0, { connected := true, version := 7 })],
        smap := [("av7", 0)], nextAddr := 1, nextUuid := 0 }
      { connected := true, version := 7 }
      { serverAddr := 0, db := 0, responses := [RValue.err "boom"] }
      "boom" [] {} rfl rfl rfl

/-- C7: the response decoder maps nested sequences to isomorphic nested
sequences element-wise, replaces every byte-like leaf by its decoded text
form through the connection's configured text decoder, leaves every other
value unchanged, and is idempotent — on an already-decoded value (no
byte-like leaves) it is a no-op, and decoded output never has byte-like
leaves, so decoding twice equals decoding once. -/
theorem claim_C7 (dec : List Nat → String) :
    (∀ xs : List RValue,
       FakeConnection._decode dec (RValue.list xs)
         = RValue.list (xs.map (FakeConnection._decode dec)))
  ∧ (∀ bs : List Nat,
       FakeConnection._decode dec (RValue.bytes bs) = RValue.str (dec bs))
  ∧ (∀ v : RValue, (∀ bs, v ≠ RValue.bytes bs) → (∀ xs, v ≠ RValue.list xs) →
       FakeConnection._decode dec v = v)
  ∧ (∀ v : RValue, hasByteLeaf v = false → FakeConnection._decode dec v = v)
  ∧ (∀ v : RValue, hasByteLeaf (FakeConnection._decode dec v) = false)
  ∧ (∀ v : RValue,
       FakeConnection._decode dec (FakeConnection._decode dec v)
         = FakeConnection._decode dec v) := by
  refine ⟨?_, fun bs => rfl, ?_, decode_id_of_no_byte dec, decode_no_byte dec,
          ?_⟩
  · intro xs
    rw [FakeConnection._decode, decodeList_eq_map]
  · intro v hb hl
    cases v with
    | bytes bs => exact absurd rfl (hb bs)
    | list xs => exact absurd rfl (hl xs)
    | str s => rfl
    | int n => rfl
    | nil => rfl
    | err m => rfl
  · intro v
    exact decode_id_of_no_byte dec _ (decode_no_byte dec v)

/-- Witness for C7 at concrete inputs: a nested response with a byte leaf
decodes element-wise to text, and values that are neither sequences nor
byte-like pass through unchanged. -/
theorem claim_C7_witness :
    FakeConnection._decode (fun _ => "A") (RValue.list [RValue.bytes [65]])
      = RValue.list ([RValue.bytes [65]].map
          (FakeConnection._decode (fun _ => "A")))
  ∧ FakeConnection._decode (fun _ => "A") (RValue.int 3) = RValue.int 3 :=
  ⟨(claim_C7 (fun _ => "A")).1 [RValue.bytes [65]],
   (claim_C7 (fun _ => "A")).2.2.1 (RValue.int 3)
     (fun _bs h => RValue.noConfusion h) (fun _xs h => RValue.noConfusion h)⟩

/-- C8 counterexample: with a connection pool supplied alongside the legacy
`charset` option and no new-style `encoding`, the translation is skipped
entirely — `encoding` stays unset and no deprecation warning is emitted,
contradicting the claim as stated. -/
theorem claim_C8_counterexample :
    (FakeRedisMixin.init_legacy
        { connection_pool := true, charset := some "utf-8" }).1.encoding
        = none
  ∧ (FakeRedisMixin.init_legacy
        { connection_pool := true, charset := some "utf-8" }).2 = [] :=
  ⟨rfl, rfl⟩

/-- C8 (amended): when no connection pool is supplied, a legacy option
(`charset`, or `errors`) given to the client adapter sets the corresponding
new-style option (`encoding`, `encoding_errors`) to the legacy value with a
deprecation warning emitted exactly once per such option; construction
continues non-fatally with the translated value, and a supplied legacy
name is never silently ignored — its warning is emitted whether or not the
new-style name was also given. -/
theorem claim_C8 (k : RedisKwds) (c e : String)
    (hpool : k.connection_pool = false) :
    (k.charset = some c →
       (FakeRedisMixin.init_legacy k).1.encoding = some c
     ∧ (FakeRedisMixin.init_legacy k).2.count Warning.charsetDeprecated = 1)
  ∧ (k.errors = some e →
       (FakeRedisMixin.init_legacy k).1.encoding_errors = some e
     ∧ (FakeRedisMixin.init_legacy k).2.count Warning.errorsDeprecated = 1)
  ∧ (k.charset = none →
       (FakeRedisMixin.init_legacy k).2.count Warning.charsetDeprecated = 0)
  ∧ (k.errors = none →
       (FakeRedisMixin.init_legacy k).2.count Warning.errorsDeprecated = 0) := by
  cases hc : k.charset <;> cases he : k.errors <;>
    simp [FakeRedisMixin.init_legacy, hpool, hc, he, List.count_cons,
          List.count_nil]

/-- Witness for C8 at concrete inputs: legacy `charset` and `errors` with
no pool are translated into `encoding` and `encoding_errors`, one warning
each. -/
theorem claim_C8_witness :
    ((FakeRedisMixin.init_legacy
        { charset := some "utf-8", errors := some "strict" }).1.encoding
        = some "utf-8"
     ∧ (FakeRedisMixin.init_legacy
        { charset := some "utf-8", errors := some "strict" }).2.count
          Warning.charsetDeprecated = 1)
  ∧ ((FakeRedisMixin.init_legacy
        { charset := some "utf-8", errors := some "strict" }).1.encoding_errors
        = some "strict"
     ∧ (FakeRedisMixin.init_legacy
        { charset := some "utf-8", errors := some "strict" }).2.count
          Warning.errorsDeprecated = 1) :=
  ⟨(claim_C8 { charset := some "utf-8", errors := some "strict" }
      "utf-8" "strict" rfl).1 rfl,
   (claim_C8 { charset := some "utf-8", errors := some "strict" }
      "utf-8" "strict" rfl).2.1 rfl⟩

/-- C9: building a client from a URL takes the pool the wrapped library's
parser produced, overrides its connection class with the simulated
connection, removes the username and password fields, and preserves every
other parsed field (host, port, database index, remaining query
parameters) exactly. -/
theorem claim_C9 (p : ParsedPool) :
    (FakeRedisMixin.from_url p).connection_class = ConnClass.fakeConnection
  ∧ (FakeRedisMixin.from_url p).username = none
  ∧ (FakeRedisMixin.from_url p).password = none
  ∧ (FakeRedisMixin.from_url p).host = p.host
  ∧ (FakeRedisMixin.from_url p).port = p.port
  ∧ (FakeRedisMixin.from_url p).db = p.db
  ∧ (FakeRedisMixin.from_url p).extra = p.extra := by
  refine ⟨rfl, rfl, rfl, rfl, rfl, rfl, rfl⟩

/-- C10: constructing a connection without an explicit server handle binds
to the server state already registered under the same identity key and
unconditionally overwrites that state's `connected` flag with the
connection's own connectivity option — in particular, a fresh default
connection (`connected = true`) to a server previously marked
not-connected silently marks the shared state connected again. -/
theorem claim_C10 (r : Registry) (pth : String) (v : Nat) (cn : Bool)
    (host : Option String) (port : Option Nat) (db a : Nat)
    (srv : FakeServer)
    (hpth : pth ≠ "")
    (hmap : r.smap.lookup (pth ++ versionSuffix v) = some a)
    (hsrv : serverAt a r = some srv) :
    (FakeBaseConnectionMixin.init none (some pth) v cn host port db
        r).1.serverAddr = a
  ∧ serverAt a ((FakeBaseConnectionMixin.init none (some pth) v cn host port
        db r).2) = some { srv with connected := cn } := by
  have hmap' : r.smap.lookup
      ((FakeBaseConnectionMixin.serverKeyOf (some pth) host port v
          r.nextUuid).1) = some a := by
    simp only [serverKeyOf_path pth hpth]
    exact hmap
  refine ⟨init_addr_of_mapped (some pth) host port v cn db r a hmap', ?_⟩
  show serverAt a
      (setConnected
        (FakeServer.get_server
          (FakeBaseConnectionMixin.serverKeyOf (some pth) host port v
            r.nextUuid).1 v
          { r with
              nextUuid := (FakeBaseConnectionMixin.serverKeyOf (some pth)
                  host port v r.nextUuid).2 }).1 cn
        (FakeServer.get_server
          (FakeBaseConnectionMixin.serverKeyOf (some pth) host port v
            r.nextUuid).1 v
          { r with
              nextUuid := (FakeBaseConnectionMixin.serverKeyOf (some pth)
                  host port v r.nextUuid).2 }).2)
      = some { srv with connected := cn }
  rw [get_server_mapped
        (FakeBaseConnectionMixin.serverKeyOf (some pth) host port v
          r.nextUuid).1 v
        { r with
            nextUuid := (FakeBaseConnectionMixin.serverKeyOf (some pth)
                host port v r.nextUuid).2 } a hmap']
  rw [serverAt_setConnected]
  have hsrv' : serverAt a
      { r with
          nextUuid := (FakeBaseConnectionMixin.serverKeyOf (some pth)
              host port v r.nextUuid).2 } = some srv := hsrv
  rw [hsrv']
  rfl

/-- Witness for C10 at concrete inputs: register a server under the key
`s1v7`, mark it not-connected, then build a default connection with path
`s1` and version 7: the shared state is connected again. -/
theorem claim_C10_witness :
    (FakeBaseConnectionMixin.init none (some "s1") 7 true none none 0
        { store := [(0, { connected := false, version := 7 })],
          smap := [("s1v7", 0)], nextAddr := 1,
          nextUuid := 0 }).1.serverAddr = 0
  ∧ serverAt 0 ((FakeBaseConnectionMixin.init none (some "s1") 7 true none
        none 0
        { store := [(0, { connected := false, version := 7 })],
          smap := [("s1v7", 0)], nextAddr := 1, nextUuid := 0 }).2)
      = some { connected := true, version := 7 } :=
  claim_C10
    { store := [(0, { connected := false, version := 7 })],
      smap := [("s1v7", 0)], nextAddr := 1, nextUuid := 0 }
    "s1" 7 true none none 0 0 { connected := false, version := 7 }
    (by decide) rfl rfl

end Fakeredis
